import Mathlib

/-!
Verification development for the poppygl software rasterizer.

The TypeScript sources are shallowly embedded over exact rationals (ℚ).
JavaScript numbers are modelled as exact rationals; the irrational-valued
library primitives (Math.sqrt / Math.hypot, Math.pow, Math.tan, Math.PI)
are collected in a `FloatOps` record that parameterizes the pipeline, so
theorems quantify over every implementation of those primitives, and
concrete witnesses instantiate them with exact rational functions.
`+Infinity` depth-buffer cells are modelled as `none : Option ℚ`.
Typed-array out-of-bounds writes are ignored (as `List.set` does).
-/

set_option maxHeartbeats 2000000
set_option maxRecDepth 4000

namespace PoppyGL

/-- Implementations of the irrational-valued JS math primitives. -/
structure FloatOps where
  sqrt : ℚ → ℚ
  powInv24 : ℚ → ℚ
  tan : ℚ → ℚ
  pi : ℚ

/-- Exact rational square root: exact on perfect squares (used by witnesses). -/
def ratSqrt (q : ℚ) : ℚ := (Nat.sqrt q.num.toNat : ℚ) / (Nat.sqrt q.den : ℚ)

/-- Concrete ops for witnesses; exact wherever the witnesses evaluate them. -/
def ratOps : FloatOps := ⟨ratSqrt, fun x => x, fun x => x, 355 / 113⟩

structure Vec3 where
  x : ℚ
  y : ℚ
  z : ℚ
deriving DecidableEq

structure Vec4 where
  x : ℚ
  y : ℚ
  z : ℚ
  w : ℚ
deriving DecidableEq

structure Color4 where
  r : ℚ
  g : ℚ
  b : ℚ
  a : ℚ
deriving DecidableEq

/-- Column-major 4x4 matrix, entries named by their gl-matrix flat index. -/
structure Mat4 where
  e0 : ℚ
  e1 : ℚ
  e2 : ℚ
  e3 : ℚ
  e4 : ℚ
  e5 : ℚ
  e6 : ℚ
  e7 : ℚ
  e8 : ℚ
  e9 : ℚ
  e10 : ℚ
  e11 : ℚ
  e12 : ℚ
  e13 : ℚ
  e14 : ℚ
  e15 : ℚ
deriving DecidableEq

/-- Column-major 3x3 matrix, entries named by their gl-matrix flat index. -/
structure Mat3 where
  n0 : ℚ
  n1 : ℚ
  n2 : ℚ
  n3 : ℚ
  n4 : ℚ
  n5 : ℚ
  n6 : ℚ
  n7 : ℚ
  n8 : ℚ
deriving DecidableEq

def mat4id : Mat4 := ⟨1,0,0,0, 0,1,0,0, 0,0,1,0, 0,0,0,1⟩

def mat3id : Mat3 := ⟨1,0,0, 0,1,0, 0,0,1⟩

/-- gl-matrix vec4.transformMat4. -/
def transformMat4 (m : Mat4) (v : Vec4) : Vec4 :=
  ⟨m.e0 * v.x + m.e4 * v.y + m.e8 * v.z + m.e12 * v.w,
   m.e1 * v.x + m.e5 * v.y + m.e9 * v.z + m.e13 * v.w,
   m.e2 * v.x + m.e6 * v.y + m.e10 * v.z + m.e14 * v.w,
   m.e3 * v.x + m.e7 * v.y + m.e11 * v.z + m.e15 * v.w⟩

/-- gl-matrix vec3.transformMat3. -/
def transformMat3 (m : Mat3) (v : Vec3) : Vec3 :=
  ⟨v.x * m.n0 + v.y * m.n3 + v.z * m.n6,
   v.x * m.n1 + v.y * m.n4 + v.z * m.n7,
   v.x * m.n2 + v.y * m.n5 + v.z * m.n8⟩

/-- gl-matrix mat4.multiply(out, a, b): the matrix product a * b. -/
def mat4mul (a b : Mat4) : Mat4 :=
  ⟨b.e0 * a.e0 + b.e1 * a.e4 + b.e2 * a.e8 + b.e3 * a.e12,
   b.e0 * a.e1 + b.e1 * a.e5 + b.e2 * a.e9 + b.e3 * a.e13,
   b.e0 * a.e2 + b.e1 * a.e6 + b.e2 * a.e10 + b.e3 * a.e14,
   b.e0 * a.e3 + b.e1 * a.e7 + b.e2 * a.e11 + b.e3 * a.e15,
   b.e4 * a.e0 + b.e5 * a.e4 + b.e6 * a.e8 + b.e7 * a.e12,
   b.e4 * a.e1 + b.e5 * a.e5 + b.e6 * a.e9 + b.e7 * a.e13,
   b.e4 * a.e2 + b.e5 * a.e6 + b.e6 * a.e10 + b.e7 * a.e14,
   b.e4 * a.e3 + b.e5 * a.e7 + b.e6 * a.e11 + b.e7 * a.e15,
   b.e8 * a.e0 + b.e9 * a.e4 + b.e10 * a.e8 + b.e11 * a.e12,
   b.e8 * a.e1 + b.e9 * a.e5 + b.e10 * a.e9 + b.e11 * a.e13,
   b.e8 * a.e2 + b.e9 * a.e6 + b.e10 * a.e10 + b.e11 * a.e14,
   b.e8 * a.e3 + b.e9 * a.e7 + b.e10 * a.e11 + b.e11 * a.e15,
   b.e12 * a.e0 + b.e13 * a.e4 + b.e14 * a.e8 + b.e15 * a.e12,
   b.e12 * a.e1 + b.e13 * a.e5 + b.e14 * a.e9 + b.e15 * a.e13,
   b.e12 * a.e2 + b.e13 * a.e6 + b.e14 * a.e10 + b.e15 * a.e14,
   b.e12 * a.e3 + b.e13 * a.e7 + b.e14 * a.e11 + b.e15 * a.e15⟩

/-- gl-matrix mat3.normalFromMat4: inverse transpose of the upper-left 3x3.
When the determinant is zero gl-matrix returns null and the destination
(freshly created by mat3.create(), i.e. the identity) is left unchanged. -/
def normalFromMat4 (a : Mat4) : Mat3 :=
  let b00 := a.e0 * a.e5 - a.e1 * a.e4
  let b01 := a.e0 * a.e6 - a.e2 * a.e4
  let b02 := a.e0 * a.e7 - a.e3 * a.e4
  let b03 := a.e1 * a.e6 - a.e2 * a.e5
  let b04 := a.e1 * a.e7 - a.e3 * a.e5
  let b05 := a.e2 * a.e7 - a.e3 * a.e6
  let b06 := a.e8 * a.e13 - a.e9 * a.e12
  let b07 := a.e8 * a.e14 - a.e10 * a.e12
  let b08 := a.e8 * a.e15 - a.e11 * a.e12
  let b09 := a.e9 * a.e14 - a.e10 * a.e13
  let b10 := a.e9 * a.e15 - a.e11 * a.e13
  let b11 := a.e10 * a.e15 - a.e11 * a.e14
  let det := b00 * b11 - b01 * b10 + b02 * b09 + b03 * b08 - b04 * b07 + b05 * b06
  if det = 0 then mat3id
  else
    let d := 1 / det
    ⟨(a.e5 * b11 - a.e6 * b10 + a.e7 * b09) * d,
     (a.e6 * b08 - a.e4 * b11 - a.e7 * b07) * d,
     (a.e4 * b10 - a.e5 * b08 + a.e7 * b06) * d,
     (a.e2 * b10 - a.e1 * b11 - a.e3 * b09) * d,
     (a.e0 * b11 - a.e2 * b08 + a.e3 * b07) * d,
     (a.e1 * b08 - a.e0 * b10 - a.e3 * b06) * d,
     (a.e13 * b05 - a.e14 * b04 + a.e15 * b03) * d,
     (a.e14 * b02 - a.e12 * b05 - a.e15 * b01) * d,
     (a.e12 * b04 - a.e13 * b02 + a.e15 * b00) * d⟩

/-- clamp(x, a, b) = Math.max(a, Math.min(b, x)). -/
def clampQ (x a b : ℚ) : ℚ := max a (min b x)

/-- JS Math.round: round half toward positive infinity. -/
def jsRound (q : ℚ) : ℤ := ⌊q + 1 / 2⌋

/-- JS ToInt32 truncation of a rational (toward zero). -/
def jsTrunc (q : ℚ) : ℤ := if q < 0 then -⌊-q⌋ else ⌊q⌋

/-- Wrap an integer into signed 32-bit range, as JS bitwise ops do. -/
def toInt32 (n : ℤ) : ℤ := (n + 2 ^ 31) % 2 ^ 32 - 2 ^ 31

/-- The JS expression `q | 0`: truncate toward zero, then wrap to int32. -/
def orZero (q : ℚ) : ℤ := toInt32 (jsTrunc q)

/-- Uint8ClampedArray write semantics for integral values. -/
def clampByte (n : ℤ) : ℤ := max 0 (min 255 n)

/-- srgbEncodeLinear01 from src/lib/utils/srgbEncodeLinear01.ts. -/
def srgbEncodeLinear01 (ops : FloatOps) (l : ℚ) : ℚ :=
  if l ≤ 31308 / 10000000 then (1292 / 100) * l
  else (1055 / 1000) * ops.powInv24 l - 55 / 1000

/-- mulColor from src/lib/utils/mulColor.ts (componentwise RGBA product). -/
def mulColor (a b : Color4) : Color4 := ⟨a.r * b.r, a.g * b.g, a.b * b.b, a.a * b.a⟩

/-- gl-matrix vec3.normalize (squared length 0 yields the zero vector). -/
def vecNormalize (ops : FloatOps) (v : Vec3) : Vec3 :=
  let len := v.x * v.x + v.y * v.y + v.z * v.z
  let s := if len > 0 then 1 / ops.sqrt len else len
  ⟨v.x * s, v.y * s, v.z * s⟩

/-- Squared Euclidean norm of a 3-vector. -/
def sqNorm (v : Vec3) : ℚ := v.x * v.x + v.y * v.y + v.z * v.z

inductive AlphaMode
  | opq
  | mask
  | blend
deriving DecidableEq

structure Texture where
  width : ℕ
  height : ℕ
  data : List ℤ
deriving DecidableEq

structure Material where
  baseColorFactor : Color4
  baseColorTexture : Option Texture
  alphaMode : Option AlphaMode
  alphaCutoff : Option ℚ
deriving DecidableEq

structure DrawCall where
  positions : List Vec3
  normals : Option (List Vec3)
  uvs : Option (List ℚ)
  indices : Option (List ℕ)
  model : Mat4
  material : Material
  colors : Option (List ℚ)
  mode : Option ℕ
deriving DecidableEq

structure Camera where
  view : Mat4
  proj : Mat4
deriving DecidableEq

structure LightSettings where
  dir : Vec3
  ambient : ℚ
deriving DecidableEq

/-- Framebuffer state of a SoftwareRenderer: RGBA byte buffer plus depth
buffer; a depth cell `none` models `+Infinity`. -/
structure RState where
  width : ℕ
  height : ℕ
  buffer : List ℤ
  depth : List (Option ℚ)
deriving DecidableEq

/-- Fresh SoftwareRenderer state: zeroed bytes, zeroed (not yet cleared)
depth, exactly as the constructor allocates the typed arrays. -/
def mkState (w h : ℕ) : RState :=
  ⟨w, h, List.replicate (w * h * 4) 0, List.replicate (w * h) (some 0)⟩

/-- SoftwareRenderer.clear: fill every pixel with the RGBA color and every
depth cell with Infinity. -/
def clearState (st : RState) (r g b a : ℤ) : RState :=
  { st with
    buffer := (List.replicate (st.width * st.height)
      [clampByte r, clampByte g, clampByte b, clampByte a]).flatten,
    depth := List.replicate (st.width * st.height) none }

/-- SoftwareRenderer.setPixel: bounds-checked RGBA write. -/
def setPixel (st : RState) (x y : ℤ) (r g b a : ℤ) : RState :=
  if x < 0 ∨ y < 0 ∨ (st.width : ℤ) ≤ x ∨ (st.height : ℤ) ≤ y then st
  else
    let idx := ((y * st.width + x) * 4).toNat
    { st with buffer :=
        ((((st.buffer.set idx (clampByte r)).set (idx + 1) (clampByte g)).set
          (idx + 2) (clampByte b)).set (idx + 3) (clampByte a)) }

/-- The comparison `z >= depth[di]` against a possibly-infinite depth cell. -/
def depthGE (z : ℚ) (d : Option ℚ) : Bool :=
  match d with
  | none => false
  | some v => decide (v ≤ z)

/-- The comparison `z < depth[di]` against a possibly-infinite depth cell. -/
def lessDepth (z : ℚ) (d : Option ℚ) : Bool :=
  match d with
  | none => true
  | some v => decide (z < v)

/-- 2D edge function from SoftwareRenderer.ts. -/
def edgeFn (a b p : ℚ × ℚ) : ℚ :=
  (p.1 - a.1) * (b.2 - a.2) - (p.2 - a.2) * (b.1 - a.1)

/-- Split a flat index list into triples, dropping a trailing partial one. -/
def triplesOf : List ℕ → List (ℕ × ℕ × ℕ)
  | a :: b :: c :: rest => (a, b, c) :: triplesOf rest
  | _ => []

/-- Split a flat index list into pairs, dropping a trailing partial one. -/
def pairsOf : List ℕ → List (ℕ × ℕ)
  | a :: b :: rest => (a, b) :: pairsOf rest
  | _ => []

/-! ## Geometry preprocessor: computeSmoothNormals (src/unnamed/part_003) -/

/-- Un-normalized face normal cross(p1-p0, p2-p0) of one index triple. -/
def faceNormal (positions : List Vec3) (t : ℕ × ℕ × ℕ) : Vec3 :=
  let p0 := positions.getD t.1 ⟨0, 0, 0⟩
  let p1 := positions.getD t.2.1 ⟨0, 0, 0⟩
  let p2 := positions.getD t.2.2 ⟨0, 0, 0⟩
  let v10 : Vec3 := ⟨p1.x - p0.x, p1.y - p0.y, p1.z - p0.z⟩
  let v20 : Vec3 := ⟨p2.x - p0.x, p2.y - p0.y, p2.z - p0.z⟩
  ⟨v10.y * v20.z - v10.z * v20.y,
   v10.z * v20.x - v10.x * v20.z,
   v10.x * v20.y - v10.y * v20.x⟩

/-- Add a vector into one slot of the accumulator array (out-of-range
writes are ignored, as Float32Array writes are). -/
def addAt (acc : List Vec3) (i : ℕ) (n : Vec3) : List Vec3 :=
  let cur := acc.getD i ⟨0, 0, 0⟩
  acc.set i ⟨cur.x + n.x, cur.y + n.y, cur.z + n.z⟩

/-- Accumulation phase of computeSmoothNormals. -/
def smoothAccum (positions : List Vec3) (tris : List (ℕ × ℕ × ℕ)) : List Vec3 :=
  tris.foldl
    (fun acc t =>
      let n := faceNormal positions t
      addAt (addAt (addAt acc t.1 n) t.2.1 n) t.2.2 n)
    (List.replicate positions.length ⟨0, 0, 0⟩)

/-- Normalization phase: v * (1 / (hypot(v) || 1)). -/
def normalizeAcc (ops : FloatOps) (v : Vec3) : Vec3 :=
  let len := ops.sqrt (sqNorm v)
  let invLength := 1 / (if len = 0 then 1 else len)
  ⟨v.x * invLength, v.y * invLength, v.z * invLength⟩

/-- computeSmoothNormals(positions, indices). -/
def computeSmoothNormals (ops : FloatOps) (positions : List Vec3)
    (indices : Option (List ℕ)) : List Vec3 :=
  let indexArray := indices.getD (List.range positions.length)
  (smoothAccum positions (triplesOf indexArray)).map (normalizeAcc ops)

/-- The accumulated (pre-normalization) normal of vertex v. -/
def smoothAccOf (positions : List Vec3) (indices : Option (List ℕ)) (v : ℕ) : Vec3 :=
  (smoothAccum positions (triplesOf (indices.getD (List.range positions.length)))).getD
    v ⟨0, 0, 0⟩

/-! ## Geometry preprocessor: computeWorldAABB (src/lib/gltf/computeWorldAABB.ts) -/

structure AABB where
  min : Vec3
  max : Vec3
deriving DecidableEq

/-- All positions of all draw calls transformed by their model matrices. -/
def worldPoints (dcs : List DrawCall) : List Vec3 :=
  dcs.flatMap (fun dc =>
    dc.positions.map (fun p =>
      let t := transformMat4 dc.model ⟨p.x, p.y, p.z, 1⟩
      (⟨t.x, t.y, t.z⟩ : Vec3)))

/-- One min/max update step; `none` is the initial ±Infinity bound pair. -/
def aabbStep (s : Option (Vec3 × Vec3)) (p : Vec3) : Option (Vec3 × Vec3) :=
  match s with
  | none => some (p, p)
  | some (mn, mx) =>
      some (⟨min mn.x p.x, min mn.y p.y, min mn.z p.z⟩,
            ⟨max mx.x p.x, max mx.y p.y, max mx.z p.z⟩)

/-- computeWorldAABB with the empty-input fallback (-1,-1,-1)/(1,1,1). -/
def computeWorldAABB (dcs : List DrawCall) : AABB :=
  match (worldPoints dcs).foldl aabbStep none with
  | none => ⟨⟨-1, -1, -1⟩, ⟨1, 1, 1⟩⟩
  | some (mn, mx) => ⟨mn, mx⟩

/-! ## Triangle rasterizer: SoftwareRenderer.drawMesh (src/unnamed/part_008) -/

/-- Per-vertex record from drawMesh's transform pass; `invW = none` marks a
vertex whose 1/w is non-finite (clip w = 0 in exact arithmetic). -/
structure MeshVert where
  sx : ℚ
  sy : ℚ
  invW : Option ℚ
  ndcZ : ℚ
  nrm : Vec3
  col : Vec3
deriving DecidableEq

def defaultMeshVert : MeshVert := ⟨0, 0, none, 0, ⟨0, 0, 0⟩, ⟨0, 0, 0⟩⟩

/-- Per-vertex color fetch: colors[i] if present and sized, else (1,1,1). -/
def vertColor3 (colors : Option (List ℚ)) (i : ℕ) : Vec3 :=
  match colors with
  | some cs =>
      if (i + 1) * 3 ≤ cs.length then
        ⟨cs.getD (i * 3) 0, cs.getD (i * 3 + 1) 0, cs.getD (i * 3 + 2) 0⟩
      else ⟨1, 1, 1⟩
  | none => ⟨1, 1, 1⟩

/-- One iteration of drawMesh's vertex loop. -/
def meshVertex (mvp : Mat4) (nm : Mat3) (W H : ℕ) (colors : Option (List ℚ))
    (p n : Vec3) (i : ℕ) : MeshVert :=
  let c := transformMat4 mvp ⟨p.x, p.y, p.z, 1⟩
  let nw := transformMat3 nm n
  let col := vertColor3 colors i
  if c.w = 0 then
    { defaultMeshVert with nrm := nw, col := col }
  else
    let invW := 1 / c.w
    let ndcX := c.x * invW
    let ndcY := c.y * invW
    let ndcZ := c.z * invW
    { sx := (jsRound ((ndcX * (1 / 2) + 1 / 2) * ((W : ℚ) - 1)) : ℚ),
      sy := (jsRound ((1 - (ndcY * (1 / 2) + 1 / 2)) * ((H : ℚ) - 1)) : ℚ),
      invW := some invW, ndcZ := ndcZ, nrm := nw, col := col }

/-- Data of one triangle entering the pixel loop. -/
structure TriFrag where
  v0 : ℚ × ℚ
  v1 : ℚ × ℚ
  v2 : ℚ × ℚ
  invW0 : ℚ
  invW1 : ℚ
  invW2 : ℚ
  ndcZ0 : ℚ
  ndcZ1 : ℚ
  ndcZ2 : ℚ
  n0 : Vec3
  n1 : Vec3
  n2 : Vec3
  uv : Option ((ℚ × ℚ) × (ℚ × ℚ) × (ℚ × ℚ))
  c0 : Vec3
  c1 : Vec3
  c2 : Vec3
  area : ℚ
deriving DecidableEq

/-- Perspective-correct interpolation of a 2-component attribute. -/
def perspInterp2 (a0 a1 a2 : ℚ × ℚ) (iw0 iw1 iw2 l0 l1 l2 : ℚ) : ℚ × ℚ :=
  let denom := l0 * iw0 + l1 * iw1 + l2 * iw2
  ((l0 * a0.1 * iw0 + l1 * a1.1 * iw1 + l2 * a2.1 * iw2) / denom,
   (l0 * a0.2 * iw0 + l1 * a1.2 * iw1 + l2 * a2.2 * iw2) / denom)

/-- Perspective-correct interpolation of a 3-component attribute. -/
def perspInterp3 (a0 a1 a2 : Vec3) (iw0 iw1 iw2 l0 l1 l2 : ℚ) : Vec3 :=
  let denom := l0 * iw0 + l1 * iw1 + l2 * iw2
  ⟨(l0 * a0.x * iw0 + l1 * a1.x * iw1 + l2 * a2.x * iw2) / denom,
   (l0 * a0.y * iw0 + l1 * a1.y * iw1 + l2 * a2.y * iw2) / denom,
   (l0 * a0.z * iw0 + l1 * a1.z * iw1 + l2 * a2.z * iw2) / denom⟩

/-- SoftwareRenderer.sampleTextureNearest. -/
def sampleTextureNearest (img : Option Texture) (u v : ℚ) : Color4 :=
  match img with
  | none => ⟨1, 1, 1, 1⟩
  | some img =>
      let x := clampQ (⌊u * ((img.width : ℚ) - 1)⌋ : ℚ) 0 ((img.width : ℚ) - 1)
      let y := clampQ (⌊v * ((img.height : ℚ) - 1)⌋ : ℚ) 0 ((img.height : ℚ) - 1)
      let idx := ((jsTrunc y * img.width + jsTrunc x) * 4).toNat
      ⟨(img.data.getD idx 0 : ℚ) / 255, (img.data.getD (idx + 1) 0 : ℚ) / 255,
       (img.data.getD (idx + 2) 0 : ℚ) / 255, (img.data.getD (idx + 3) 0 : ℚ) / 255⟩

/-- Edge weights and barycentrics of the pixel center (x+1/2, y+1/2). -/
def fragLams (tri : TriFrag) (x y : ℤ) : (ℚ × ℚ × ℚ) × (ℚ × ℚ × ℚ) :=
  let p : ℚ × ℚ := ((x : ℚ) + 1 / 2, (y : ℚ) + 1 / 2)
  let w0 := edgeFn tri.v1 tri.v2 p
  let w1 := edgeFn tri.v2 tri.v0 p
  let w2 := edgeFn tri.v0 tri.v1 p
  let invArea := 1 / tri.area
  ((w0, w1, w2), (w0 * invArea, w1 * invArea, w2 * invArea))

/-- Base color of a fragment: base_color_factor, multiplied by the nearest
texture sample when UVs and a texture are both present. -/
def fragBase (mat : Material) (tri : TriFrag) (l0 l1 l2 : ℚ) : Color4 :=
  match tri.uv, mat.baseColorTexture with
  | some uvt, some tex =>
      let uvp := perspInterp2 uvt.1 uvt.2.1 uvt.2.2 tri.invW0 tri.invW1 tri.invW2 l0 l1 l2
      mulColor ⟨mat.baseColorFactor.r, mat.baseColorFactor.g, mat.baseColorFactor.b,
        mat.baseColorFactor.a⟩ (sampleTextureNearest (some tex) uvp.1 uvp.2)
  | _, _ => mat.baseColorFactor

/-- The interpolated fragment alpha (base_color_factor alpha times texture
alpha); vertex colors and lighting do not touch alpha. -/
def fragAlphaAt (mat : Material) (tri : TriFrag) (x y : ℤ) : ℚ :=
  let ls := (fragLams tri x y).2
  (fragBase mat tri ls.1 ls.2.1 ls.2.2).a

/-- Everything drawMesh does for one fragment after the depth-test depth
write (source line 495): shading, alpha-mode handling, gamma and the pixel
write. `st` is the state with the depth already updated at `di`. -/
def shadeCovered (ops : FloatOps) (mat : Material) (light : LightSettings)
    (gammaOut : Bool) (tri : TriFrag) (st : RState) (x y : ℤ)
    (l0 l1 l2 z01 : ℚ) (di : ℕ) : RState :=
  let baseColor := fragBase mat tri l0 l1 l2
  let c3 := perspInterp3 tri.c0 tri.c1 tri.c2 tri.invW0 tri.invW1 tri.invW2 l0 l1 l2
  let baseColor2 : Color4 :=
    ⟨baseColor.r * c3.x, baseColor.g * c3.y, baseColor.b * c3.z, baseColor.a⟩
  let np := perspInterp3 tri.n0 tri.n1 tri.n2 tri.invW0 tri.invW1 tri.invW2 l0 l1 l2
  let h := ops.sqrt (np.x * np.x + np.y * np.y + np.z * np.z)
  let nlen := if h = 0 then 1 else h
  let nrm : Vec3 := ⟨np.x / nlen, np.y / nlen, np.z / nlen⟩
  let ambient := clampQ light.ambient 0 1
  let L := vecNormalize ops light.dir
  let ndotl := max 0 (nrm.x * (-L.x) + nrm.y * (-L.y) + nrm.z * (-L.z))
  let lit := ambient + (1 - ambient) * ndotl
  let r := baseColor2.r * lit
  let g := baseColor2.g * lit
  let b := baseColor2.b * lit
  let a := baseColor2.a
  let alphaMode := mat.alphaMode.getD .opq
  let alphaCutoff := mat.alphaCutoff.getD (1 / 2)
  if alphaMode = .mask ∧ a < alphaCutoff then st
  else
    let st2 := if alphaMode ≠ .blend then
        { st with depth := st.depth.set di (some z01) } else st
    let r' := if gammaOut then srgbEncodeLinear01 ops (clampQ r 0 1) else clampQ r 0 1
    let g' := if gammaOut then srgbEncodeLinear01 ops (clampQ g 0 1) else clampQ g 0 1
    let b' := if gammaOut then srgbEncodeLinear01 ops (clampQ b 0 1) else clampQ b 0 1
    let dstIdx := ((y * st.width + x) * 4).toNat
    let dstR := (st2.buffer.getD dstIdx 0 : ℚ) / 255
    let dstG := (st2.buffer.getD (dstIdx + 1) 0 : ℚ) / 255
    let dstB := (st2.buffer.getD (dstIdx + 2) 0 : ℚ) / 255
    let dstA := (st2.buffer.getD (dstIdx + 3) 0 : ℚ) / 255
    let outs : ℚ × ℚ × ℚ × ℚ :=
      if alphaMode = .blend ∧ a < 1 then
        (r' * a + dstR * (1 - a), g' * a + dstG * (1 - a), b' * a + dstB * (1 - a),
         a + dstA * (1 - a))
      else (r', g', b', a)
    setPixel st2 x y
      (orZero (clampQ outs.1 0 1 * 255)) (orZero (clampQ outs.2.1 0 1 * 255))
      (orZero (clampQ outs.2.2.1 0 1 * 255)) (orZero (clampQ outs.2.2.2 0 1 * 255))

/-- drawMesh's pixel-loop body for pixel (x,y): coverage test, depth test,
the immediate depth write of source line 495, then `shadeCovered`. -/
def shadeFragment (ops : FloatOps) (mat : Material) (light : LightSettings)
    (gammaOut : Bool) (tri : TriFrag) (st : RState) (x y : ℤ) : RState :=
  let ws := (fragLams tri x y).1
  if ws.1 < 0 ∨ ws.2.1 < 0 ∨ ws.2.2 < 0 then st
  else
    let ls := (fragLams tri x y).2
    let zndc := ls.1 * tri.ndcZ0 + ls.2.1 * tri.ndcZ1 + ls.2.2 * tri.ndcZ2
    let z01 := zndc * (1 / 2) + 1 / 2
    let di := (y * st.width + x).toNat
    if depthGE z01 (st.depth.getD di none) then st
    else
      let st1 := { st with depth := st.depth.set di (some z01) }
      shadeCovered ops mat light gammaOut tri st1 x y ls.1 ls.2.1 ls.2.2 z01 di

/-- Integer range [a, b] as a list (empty when a > b). -/
def intRange (a b : ℤ) : List ℤ := (List.range (b + 1 - a).toNat).map (fun k => a + k)

/-- drawMesh's per-triangle work: clipped-vertex rejection, degenerate and
back-face rejection, bounding box, then the pixel loop. -/
def rasterTriangle (ops : FloatOps) (st : RState) (verts : List MeshVert)
    (uvs : Option (List ℚ)) (mat : Material) (light : LightSettings)
    (cull gammaOut : Bool) (t : ℕ × ℕ × ℕ) : RState :=
  let v0 := verts.getD t.1 defaultMeshVert
  let v1 := verts.getD t.2.1 defaultMeshVert
  let v2 := verts.getD t.2.2 defaultMeshVert
  if v0.invW.isNone ∨ v1.invW.isNone ∨ v2.invW.isNone then st
  else
    let area := edgeFn (v0.sx, v0.sy) (v1.sx, v1.sy) (v2.sx, v2.sy)
    if area = 0 then st
    else if cull ∧ area < 0 then st
    else
      let minX : ℤ := max 0 (orZero (min (min v0.sx v1.sx) v2.sx))
      let maxX : ℤ := min ((st.width : ℤ) - 1) (orZero (max (max v0.sx v1.sx) v2.sx))
      let minY : ℤ := max 0 (orZero (min (min v0.sy v1.sy) v2.sy))
      let maxY : ℤ := min ((st.height : ℤ) - 1) (orZero (max (max v0.sy v1.sy) v2.sy))
      let tri : TriFrag :=
        { v0 := (v0.sx, v0.sy), v1 := (v1.sx, v1.sy), v2 := (v2.sx, v2.sy),
          invW0 := v0.invW.getD 0, invW1 := v1.invW.getD 0, invW2 := v2.invW.getD 0,
          ndcZ0 := v0.ndcZ, ndcZ1 := v1.ndcZ, ndcZ2 := v2.ndcZ,
          n0 := v0.nrm, n1 := v1.nrm, n2 := v2.nrm,
          uv := uvs.map (fun us =>
            ((us.getD (t.1 * 2) 0, us.getD (t.1 * 2 + 1) 0),
             (us.getD (t.2.1 * 2) 0, us.getD (t.2.1 * 2 + 1) 0),
             (us.getD (t.2.2 * 2) 0, us.getD (t.2.2 * 2 + 1) 0))),
          c0 := v0.col, c1 := v1.col, c2 := v2.col, area := area }
      (intRange minY maxY).foldl
        (fun s1 y =>
          (intRange minX maxX).foldl
            (fun s2 x => shadeFragment ops mat light gammaOut tri s2 x y) s1)
        st

/-- SoftwareRenderer.drawMesh. -/
def drawMesh (ops : FloatOps) (st : RState) (mesh : DrawCall) (cam : Camera)
    (light : LightSettings) (material : Material) (cull gammaOut : Bool) : RState :=
  let mvp := mat4mul cam.proj (mat4mul cam.view mesh.model)
  let nm := normalFromMat4 mesh.model
  let vertexCount := mesh.positions.length
  let idx := mesh.indices.getD (List.range vertexCount)
  let useNormals := mesh.normals.getD (computeSmoothNormals ops mesh.positions (some idx))
  let verts := (List.range vertexCount).map (fun i =>
    meshVertex mvp nm st.width st.height mesh.colors
      (mesh.positions.getD i ⟨0, 0, 0⟩) (useNormals.getD i ⟨0, 0, 0⟩) i)
  (triplesOf idx).foldl
    (fun s t => rasterTriangle ops s verts mesh.uvs material light cull gammaOut t) st

/-! ## Line rasterizer: SoftwareRenderer.drawLines (src/unnamed/part_008) -/

/-- Per-vertex record from drawLines' transform pass; `scr = none` marks a
vertex whose 1/w is non-finite (the JS code stores NaN screen coords). -/
structure LVert where
  scr : Option (ℚ × ℚ)
  ndcZ : ℚ
  col : Color4
deriving DecidableEq

def defaultLVert : LVert := ⟨none, 0, ⟨1, 1, 1, 1⟩⟩

/-- Per-vertex RGBA fetch for lines: colors[i] if present and sized. -/
def vertColor4 (colors : Option (List ℚ)) (i : ℕ) : Color4 :=
  match colors with
  | some cs =>
      if (i + 1) * 4 ≤ cs.length then
        ⟨cs.getD (i * 4) 0, cs.getD (i * 4 + 1) 0, cs.getD (i * 4 + 2) 0,
         cs.getD (i * 4 + 3) 0⟩
      else ⟨1, 1, 1, 1⟩
  | none => ⟨1, 1, 1, 1⟩

/-- One iteration of drawLines' vertex loop (no rounding of screen coords). -/
def lineVertex (mvp : Mat4) (W H : ℕ) (colors : Option (List ℚ))
    (p : Vec3) (i : ℕ) : LVert :=
  let c := transformMat4 mvp ⟨p.x, p.y, p.z, 1⟩
  let col := vertColor4 colors i
  if c.w = 0 then { defaultLVert with col := col }
  else
    let invW := 1 / c.w
    { scr := some ((c.x * invW * (1 / 2) + 1 / 2) * ((W : ℚ) - 1),
                   (1 - (c.y * invW * (1 / 2) + 1 / 2)) * ((H : ℚ) - 1)),
      ndcZ := c.z * invW, col := col }

/-- Walking state of the DDA loop. -/
structure LineCursor where
  x : ℚ
  y : ℚ
  z : ℚ
  r : ℚ
  g : ℚ
  b : ℚ
  a : ℚ
deriving DecidableEq

/-- The quantized alpha byte of one DDA step: (clamp(vA*baseA,0,1)*255)|0. -/
def lineAlphaByte (base : Color4) (cur : LineCursor) : ℤ :=
  orZero (clampQ (cur.a * base.a) 0 1 * 255)

/-- One gamma-encoded, quantized color byte of a DDA step. -/
def lineColorByte (ops : FloatOps) (gammaOut : Bool) (f : ℚ) : ℤ :=
  orZero ((if gammaOut then srgbEncodeLinear01 ops (clampQ f 0 1) else clampQ f 0 1) * 255)

/-- The alpha-blending branch of drawLines (source lines 277-298): writes
the source-over composite into the bitmap and never touches depth. -/
def sourceOverWrite (st : RState) (di : ℕ) (r255 g255 b255 a255 : ℤ) : RState :=
  let idx := di * 4
  let srcA := (a255 : ℚ) / 255
  let dstR := (st.buffer.getD idx 0 : ℚ)
  let dstG := (st.buffer.getD (idx + 1) 0 : ℚ)
  let dstB := (st.buffer.getD (idx + 2) 0 : ℚ)
  let dstA := (st.buffer.getD (idx + 3) 0 : ℚ) / 255
  let outA := srcA + dstA * (1 - srcA)
  if 0 < outA then
    let outR := ((r255 : ℚ) * srcA + dstR * dstA * (1 - srcA)) / outA
    let outG := ((g255 : ℚ) * srcA + dstG * dstA * (1 - srcA)) / outA
    let outB := ((b255 : ℚ) * srcA + dstB * dstA * (1 - srcA)) / outA
    { st with buffer :=
        ((((st.buffer.set idx (clampByte (jsRound outR))).set
            (idx + 1) (clampByte (jsRound outG))).set
            (idx + 2) (clampByte (jsRound outB))).set
            (idx + 3) (clampByte (jsRound (outA * 255)))) }
  else st

/-- The body of drawLines' DDA loop for one step of the cursor. -/
def lineStepPixel (ops : FloatOps) (isBlend gammaOut : Bool) (base : Color4)
    (st : RState) (cur : LineCursor) : RState :=
  let xi := jsRound cur.x
  let yi := jsRound cur.y
  if 0 ≤ xi ∧ xi < (st.width : ℤ) ∧ 0 ≤ yi ∧ yi < (st.height : ℤ) ∧
      0 ≤ cur.z ∧ cur.z ≤ 1 then
    let di := (yi * st.width + xi).toNat
    let r255 := lineColorByte ops gammaOut (cur.r * base.r)
    let g255 := lineColorByte ops gammaOut (cur.g * base.g)
    let b255 := lineColorByte ops gammaOut (cur.b * base.b)
    let a255 := lineAlphaByte base cur
    if isBlend ∧ a255 < 255 then
      if 0 < a255 ∧ lessDepth cur.z (st.depth.getD di none) then
        sourceOverWrite st di r255 g255 b255 a255
      else st
    else if lessDepth cur.z (st.depth.getD di none) then
      setPixel { st with depth := st.depth.set di (some cur.z) } xi yi r255 g255 b255 a255
    else st
  else st

/-- drawLines' per-segment work: NaN and near/far rejection, rounding of the
endpoints, DDA increments and the step loop. -/
def rasterLine (ops : FloatOps) (st : RState) (verts : List LVert) (base : Color4)
    (hasVC isBlend gammaOut : Bool) (pr : ℕ × ℕ) : RState :=
  let a := verts.getD pr.1 defaultLVert
  let b := verts.getD pr.2 defaultLVert
  match a.scr, b.scr with
  | some s0, some s1 =>
      let z0 := a.ndcZ * (1 / 2) + 1 / 2
      let z1 := b.ndcZ * (1 / 2) + 1 / 2
      if (z0 < 0 ∧ z1 < 0) ∨ (z0 > 1 ∧ z1 > 1) then st
      else
        let x0 := jsRound s0.1
        let y0 := jsRound s0.2
        let x1 := jsRound s1.1
        let y1 := jsRound s1.2
        let dx := x1 - x0
        let dy := y1 - y0
        let steps := max dx.natAbs dy.natAbs
        if steps = 0 then st
        else
          let xinc := (dx : ℚ) / (steps : ℚ)
          let yinc := (dy : ℚ) / (steps : ℚ)
          let zinc := (z1 - z0) / (steps : ℚ)
          let c0 := a.col
          let c1 := b.col
          let rInc := if hasVC then (c1.r - c0.r) / (steps : ℚ) else 0
          let gInc := if hasVC then (c1.g - c0.g) / (steps : ℚ) else 0
          let bInc := if hasVC then (c1.b - c0.b) / (steps : ℚ) else 0
          let aInc := if hasVC then (c1.a - c0.a) / (steps : ℚ) else 0
          let cur0 : LineCursor :=
            ⟨(x0 : ℚ), (y0 : ℚ), z0,
             if hasVC then c0.r else 1, if hasVC then c0.g else 1,
             if hasVC then c0.b else 1, if hasVC then c0.a else 1⟩
          ((List.range (steps + 1)).foldl
            (fun (p : RState × LineCursor) _ =>
              (lineStepPixel ops isBlend gammaOut base p.1 p.2,
               { x := p.2.x + xinc, y := p.2.y + yinc, z := p.2.z + zinc,
                 r := p.2.r + rInc, g := p.2.g + gInc, b := p.2.b + bInc,
                 a := p.2.a + aInc }))
            (st, cur0)).1
  | _, _ => st

/-- SoftwareRenderer.drawLines; a draw call without indices returns at once. -/
def drawLines (ops : FloatOps) (st : RState) (mesh : DrawCall) (cam : Camera)
    (gammaOut : Bool) : RState :=
  match mesh.indices with
  | none => st
  | some indices =>
      let mvp := mat4mul cam.proj (mat4mul cam.view mesh.model)
      let vertexCount := mesh.positions.length
      let verts := (List.range vertexCount).map (fun i =>
        lineVertex mvp st.width st.height mesh.colors
          (mesh.positions.getD i ⟨0, 0, 0⟩) i)
      let base := mesh.material.baseColorFactor
      let hasVC := match mesh.colors with
        | some cs => decide (0 < cs.length)
        | none => false
      let isBlend := decide (mesh.material.alphaMode = some .blend)
      (pairsOf indices).foldl
        (fun s pr => rasterLine ops s verts base hasVC isBlend gammaOut pr) st

/-! ## Camera builder (src/unnamed/part_008, buildCamera) -/

/-- toRad(d) = d * Math.PI / 180 with the float approximation of pi. -/
def toRadQ (ops : FloatOps) (d : ℚ) : ℚ := d * ops.pi / 180

/-- gl-matrix mat4.perspective with a finite far plane. -/
def perspectiveM (ops : FloatOps) (fovy aspect near far : ℚ) : Mat4 :=
  let f := 1 / ops.tan (fovy / 2)
  let nf := 1 / (near - far)
  ⟨f / aspect, 0, 0, 0,
   0, f, 0, 0,
   0, 0, (far + near) * nf, -1,
   0, 0, 2 * far * near * nf, 0⟩

/-- gl-matrix mat4.lookAt (EPSILON = 0.000001). -/
def lookAtM (ops : FloatOps) (eye center up : Vec3) : Mat4 :=
  let eps : ℚ := 1 / 1000000
  if |eye.x - center.x| < eps ∧ |eye.y - center.y| < eps ∧ |eye.z - center.z| < eps then
    mat4id
  else
    let z0 := eye.x - center.x
    let z1 := eye.y - center.y
    let z2 := eye.z - center.z
    let lz := 1 / ops.sqrt (z0 * z0 + z1 * z1 + z2 * z2)
    let z0 := z0 * lz
    let z1 := z1 * lz
    let z2 := z2 * lz
    let x0 := up.y * z2 - up.z * z1
    let x1 := up.z * z0 - up.x * z2
    let x2 := up.x * z1 - up.y * z0
    let lx := ops.sqrt (x0 * x0 + x1 * x1 + x2 * x2)
    let x0 := if lx = 0 then 0 else x0 * (1 / lx)
    let x1 := if lx = 0 then 0 else x1 * (1 / lx)
    let x2 := if lx = 0 then 0 else x2 * (1 / lx)
    let y0 := z1 * x2 - z2 * x1
    let y1 := z2 * x0 - z0 * x2
    let y2 := z0 * x1 - z1 * x0
    let ly := ops.sqrt (y0 * y0 + y1 * y1 + y2 * y2)
    let y0 := if ly = 0 then 0 else y0 * (1 / ly)
    let y1 := if ly = 0 then 0 else y1 * (1 / ly)
    let y2 := if ly = 0 then 0 else y2 * (1 / ly)
    ⟨x0, y0, z0, 0,
     x1, y1, z1, 0,
     x2, y2, z2, 0,
     -(x0 * eye.x + x1 * eye.y + x2 * eye.z),
     -(y0 * eye.x + y1 * eye.y + y2 * eye.z),
     -(z0 * eye.x + z1 * eye.y + z2 * eye.z), 1⟩

/-- Center of the world AABB of a draw-call list. -/
def aabbCenter (aabb : AABB) : Vec3 :=
  ⟨(aabb.min.x + aabb.max.x) / 2, (aabb.min.y + aabb.max.y) / 2,
   (aabb.min.z + aabb.max.z) / 2⟩

/-- buildCamera from src/unnamed/part_008. -/
def buildCamera (ops : FloatOps) (drawCalls : List DrawCall) (width height : ℕ)
    (fovDeg : ℚ) (camPos lookAt : Option Vec3) : Camera :=
  let aspect := (width : ℚ) / (height : ℚ)
  let near : ℚ := 1 / 100
  let far : ℚ := 1000
  let proj := perspectiveM ops (toRadQ ops fovDeg) aspect near far
  let ec : Vec3 × Vec3 :=
    match camPos with
    | some e =>
        (e, match lookAt with
            | some c => c
            | none => aabbCenter (computeWorldAABB drawCalls))
    | none =>
        let aabb := computeWorldAABB drawCalls
        let center := aabbCenter aabb
        let diag := ops.sqrt
          ((aabb.max.x - aabb.min.x) * (aabb.max.x - aabb.min.x) +
           (aabb.max.y - aabb.min.y) * (aabb.max.y - aabb.min.y) +
           (aabb.max.z - aabb.min.z) * (aabb.max.z - aabb.min.z))
        let radius := diag * (1 / 2)
        let fov := toRadQ ops fovDeg
        let dist := radius / ops.tan (fov * (1 / 2)) + radius * (1 / 2)
        (⟨center.x + dist, center.y + dist * (3 / 10), center.z + dist⟩, center)
  ⟨lookAtM ops ec.1 ec.2 ⟨0, 1, 0⟩, proj⟩

/-! ## Render orchestrator (src/lib/render/renderDrawCalls.ts) -/

/-- The grid option: absent/false, true, or a GridOptions object. -/
structure GridOptions where
  size : Option ℚ
  divisions : Option ℚ
  colorOpt : Option Vec3
  offsetX : Option ℚ
  offsetY : Option ℚ
  offsetZ : Option ℚ
  infiniteGrid : Bool
  cellSize : Option ℚ
  sectionSize : Option ℚ
  fadeDistance : Option ℚ
  fadeStrength : Option ℚ
  gridColor : Option Vec3
  sectionColor : Option Vec3
deriving DecidableEq

/-- The empty GridOptions object `{}`. -/
def emptyGridOptions : GridOptions :=
  ⟨none, none, none, none, none, none, false, none, none, none, none, none, none⟩

inductive GridSetting
  | off
  | onTrue
  | opts (g : GridOptions)
deriving DecidableEq

/-- Fully resolved render options. -/
structure RenderOptions where
  width : ℕ
  height : ℕ
  fov : ℚ
  cull : Bool
  gamma : Bool
  ambient : ℚ
  lightDir : Vec3
  camPos : Option Vec3
  lookAt : Option Vec3
  backgroundColor : Option Vec3
  grid : GridSetting
deriving DecidableEq

/-- Partial options as supplied by the caller (`none` = field absent). -/
structure RenderOptionsInput where
  width : Option ℕ
  height : Option ℕ
  fov : Option ℚ
  cull : Option Bool
  gamma : Option Bool
  ambient : Option ℚ
  lightDir : Option Vec3
  camPos : Option (Option Vec3)
  lookAt : Option (Option Vec3)
  backgroundColor : Option (Option Vec3)
  grid : Option GridSetting
deriving DecidableEq

/-- DEFAULT_RENDER_OPTIONS from src/lib/render/getDefaultRenderOptions.ts. -/
def defaultRenderOptions : RenderOptions :=
  { width := 800, height := 600, fov := 60, cull := true, gamma := true,
    ambient := 15 / 100, lightDir := ⟨-(4 / 10), -(9 / 10), -(2 / 10)⟩,
    camPos := none, lookAt := none, backgroundColor := none, grid := .off }

/-- resolveRenderOptions from src/unnamed/part_010: defaults overridden by
any field present in the input. -/
def resolveRenderOptions (i : RenderOptionsInput) : RenderOptions :=
  { width := i.width.getD defaultRenderOptions.width,
    height := i.height.getD defaultRenderOptions.height,
    fov := i.fov.getD defaultRenderOptions.fov,
    cull := i.cull.getD defaultRenderOptions.cull,
    gamma := i.gamma.getD defaultRenderOptions.gamma,
    ambient := i.ambient.getD defaultRenderOptions.ambient,
    lightDir := i.lightDir.getD defaultRenderOptions.lightDir,
    camPos := i.camPos.getD defaultRenderOptions.camPos,
    lookAt := i.lookAt.getD defaultRenderOptions.lookAt,
    backgroundColor := i.backgroundColor.getD defaultRenderOptions.backgroundColor,
    grid := i.grid.getD defaultRenderOptions.grid }

/-- Arguments handed to drawInfiniteGrid. -/
structure InfGridArgs where
  camera : Camera
  gridY : ℚ
  cellSize : Option ℚ
  sectionSize : Option ℚ
  fadeDistance : Option ℚ
  fadeStrength : Option ℚ
  gridColor : Option Vec3
  sectionColor : Option Vec3
  gammaOut : Bool
deriving DecidableEq

/-- The two collaborators the orchestrator dispatches to whose bodies the
claims do not depend on: createGrid (src/lib/gltf/createGrid.ts) and
drawInfiniteGrid (src/unnamed/part_012). The theorems below hold for every
implementation. -/
structure ExternalFns where
  createGrid : GridOptions → DrawCall
  drawInfiniteGrid : RState → InfGridArgs → RState

/-- The object-spread merge of the computed default grid options with the
user's grid options (offset merged componentwise). -/
def mergeGridOptions (user : GridOptions) (dSize dOffX dOffY dOffZ : ℚ) : GridOptions :=
  { size := some (user.size.getD dSize),
    divisions := user.divisions,
    colorOpt := user.colorOpt,
    offsetX := some (user.offsetX.getD dOffX),
    offsetY := some (user.offsetY.getD dOffY),
    offsetZ := some (user.offsetZ.getD dOffZ),
    infiniteGrid := user.infiniteGrid,
    cellSize := user.cellSize, sectionSize := user.sectionSize,
    fadeDistance := user.fadeDistance, fadeStrength := user.fadeStrength,
    gridColor := user.gridColor, sectionColor := user.sectionColor }

/-- The grid-handling block of renderDrawCalls: returns the draw-call list
(with a regular grid appended when applicable) and the pending
infinite-grid options. -/
def gridStage (ext : ExternalFns) (opts : RenderOptions) (drawCalls : List DrawCall) :
    List DrawCall × Option GridOptions :=
  let branch := fun (user : GridOptions) =>
    if user.infiniteGrid then (drawCalls, some user)
    else
      let aabb := computeWorldAABB drawCalls
      let sizeX := aabb.max.x - aabb.min.x
      let sizeZ := aabb.max.z - aabb.min.z
      let maxSize := max sizeX sizeZ
      let defaultSize : ℤ := ⌈maxSize * (12 / 10) / 2⌉ * 2
      let dSize : ℚ := if (defaultSize : ℚ) > 0 then (defaultSize : ℚ) else 10
      let merged := mergeGridOptions user dSize
        ((aabb.min.x + aabb.max.x) / 2) aabb.min.y ((aabb.min.z + aabb.max.z) / 2)
      (drawCalls ++ [ext.createGrid merged], none)
  match opts.grid with
  | .off => (drawCalls, none)
  | .onTrue => branch emptyGridOptions
  | .opts u => branch u

/-- Effective alpha mode of a draw call: alphaMode ?? "OPAQUE". -/
def alphaModeOf (dc : DrawCall) : AlphaMode := dc.material.alphaMode.getD .opq

def isMode (m : AlphaMode) (dc : DrawCall) : Bool := decide (alphaModeOf dc = m)

/-- The renderGroup helper: dispatch each draw call by its mode. -/
def renderGroup (ops : FloatOps) (cam : Camera) (opts : RenderOptions)
    (st : RState) (dcs : List DrawCall) : RState :=
  dcs.foldl
    (fun s dc =>
      if dc.mode = some 1 then drawLines ops s dc cam opts.gamma
      else drawMesh ops s dc cam ⟨opts.lightDir, opts.ambient⟩ dc.material
        opts.cull opts.gamma)
    st

/-- Passes of renderDrawCalls after the clear: opaque group, mask group,
optional infinite grid, blend group. `origDCs` is the caller's list, used
for the infinite grid's AABB. -/
def renderStages (ops : FloatOps) (ext : ExternalFns) (cam : Camera)
    (opts : RenderOptions) (st1 : RState) (allDCs : List DrawCall)
    (infOpt : Option GridOptions) (origDCs : List DrawCall) : RState :=
  let opaqueDraws := allDCs.filter (isMode .opq)
  let maskDraws := allDCs.filter (isMode .mask)
  let blendDraws := allDCs.filter (isMode .blend)
  let st2 := renderGroup ops cam opts st1 opaqueDraws
  let st3 := renderGroup ops cam opts st2 maskDraws
  let st4 := match infOpt with
    | some ig =>
        let aabb := computeWorldAABB origDCs
        let modelCenterY := (aabb.min.y + aabb.max.y) / 2
        let gridY := ig.offsetY.getD modelCenterY
        ext.drawInfiniteGrid st3
          ⟨cam, gridY, ig.cellSize, ig.sectionSize, ig.fadeDistance,
           ig.fadeStrength, ig.gridColor, ig.sectionColor, opts.gamma⟩
    | none => st3
  renderGroup ops cam opts st4 blendDraws

structure RenderResult where
  state : RState
  camera : Camera
  options : RenderOptions
deriving DecidableEq

/-- renderDrawCalls from src/lib/render/renderDrawCalls.ts. -/
def renderDrawCalls (ops : FloatOps) (ext : ExternalFns)
    (drawCalls : List DrawCall) (optionsInput : RenderOptionsInput) : RenderResult :=
  let options := resolveRenderOptions optionsInput
  let camera := buildCamera ops drawCalls options.width options.height options.fov
    options.camPos options.lookAt
  let st0 := mkState options.width options.height
  let st1 := match options.backgroundColor with
    | some c => clearState st0 (jsRound (c.x * 255)) (jsRound (c.y * 255))
        (jsRound (c.z * 255)) 255
    | none => clearState st0 0 0 0 0
  let gr := gridStage ext options drawCalls
  ⟨renderStages ops ext camera options st1 gr.1 gr.2 drawCalls, camera, options⟩

/-! ## Concrete fixtures for counterexamples and witnesses -/

/-- Identity camera: clip coordinates equal object coordinates. -/
def cam0 : Camera := ⟨mat4id, mat4id⟩

/-- Camera whose projection is -identity: every clip w equals -1. -/
def camNeg : Camera := ⟨mat4id, ⟨-1,0,0,0, 0,-1,0,0, 0,0,-1,0, 0,0,0,-1⟩⟩

/-- Camera whose projection has a zero bottom row: every clip w equals 0. -/
def camZeroW : Camera := ⟨mat4id, ⟨1,0,0,0, 0,1,0,0, 0,0,1,0, 0,0,0,0⟩⟩

/-- Light along -Z with zero ambient. -/
def light0 : LightSettings := ⟨⟨0, 0, -1⟩, 0⟩

/-- A cleared 2x2 framebuffer (transparent black, depth at Infinity). -/
def stClear2 : RState := clearState (mkState 2 2) 0 0 0 0

/-- A triangle covering exactly pixel (0,0) of a 2x2 target under `cam0`. -/
def posT : List Vec3 := [⟨-1, 1, 0⟩, ⟨-1, -1, 0⟩, ⟨1, 1, 0⟩]

def matBlendHalf : Material := ⟨⟨1, 0, 0, 1 / 2⟩, none, some .blend, none⟩

def matMaskQuarter : Material := ⟨⟨1, 0, 0, 1 / 4⟩, none, some .mask, none⟩

def matMaskPoint6 : Material := ⟨⟨1, 1, 1, 3 / 5⟩, none, some .mask, none⟩

def matOpaqueW : Material := ⟨⟨1, 1, 1, 1⟩, none, none, none⟩

def dcBlend : DrawCall := ⟨posT, none, none, none, mat4id, matBlendHalf, none, none⟩

def dcMask : DrawCall := ⟨posT, none, none, none, mat4id, matMaskQuarter, none, none⟩

def dcMask6 : DrawCall := ⟨posT, none, none, none, mat4id, matMaskPoint6, none, none⟩

def dcOpaque : DrawCall := ⟨posT, none, none, none, mat4id, matOpaqueW, none, none⟩

/-- A two-vertex line draw call (no indices) across the top row. -/
def dcLine : DrawCall :=
  ⟨[⟨-1, 1, 0⟩, ⟨1, 1, 0⟩], none, none, none, mat4id, matOpaqueW, none, some 1⟩

/-- The clip-space w of vertex i of a draw call under a camera. -/
def clipWOf (mesh : DrawCall) (cam : Camera) (i : ℕ) : ℚ :=
  let p := mesh.positions.getD i ⟨0, 0, 0⟩
  (transformMat4 (mat4mul cam.proj (mat4mul cam.view mesh.model)) ⟨p.x, p.y, p.z, 1⟩).w

/-- C1: a BLEND triangle draw call is claimed to leave the depth buffer
unchanged, but drawMesh writes depth[di] = z01 immediately after the depth
test (source line 495), before the alpha-mode branch; so the blended
fragment at pixel (0,0) does write the depth buffer. -/
theorem c1_blend_writes_depth :
    dcBlend.material.alphaMode = some AlphaMode.blend ∧
    stClear2.depth = [none, none, none, none] ∧
    (drawMesh ratOps stClear2 dcBlend cam0 light0 dcBlend.material true false).depth =
      [some (1 / 2), none, none, none] := by
  with_unfolding_all decide

/-- C2: a MASK fragment below the alpha cutoff (alpha 1/4 < 1/2) is claimed
to change neither the bitmap nor the depth buffer; the bitmap is indeed
unchanged, but the early depth write of source line 495 has already updated
the depth buffer before the cutoff test skips the fragment. -/
theorem c2_mask_skip_writes_depth :
    dcMask.material.alphaMode = some AlphaMode.mask ∧
    (dcMask.material.baseColorFactor.a < dcMask.material.alphaCutoff.getD (1 / 2)) ∧
    (drawMesh ratOps stClear2 dcMask cam0 light0 dcMask.material true false).buffer =
      stClear2.buffer ∧
    stClear2.depth = [none, none, none, none] ∧
    (drawMesh ratOps stClear2 dcMask cam0 light0 dcMask.material true false).depth =
      [some (1 / 2), none, none, none] := by
  with_unfolding_all decide

/-- C3 counterexample: a triangle whose three vertices all have clip w = -1
(hence w ≤ 0) is not rejected — only non-finite 1/w marks a vertex clipped —
and it rasterizes a pixel and a depth entry. -/
theorem c3_counterexample :
    clipWOf dcOpaque camNeg 0 = -1 ∧ clipWOf dcOpaque camNeg 1 = -1 ∧
    clipWOf dcOpaque camNeg 2 = -1 ∧
    (drawMesh ratOps stClear2 dcOpaque camNeg light0 dcOpaque.material true false).buffer ≠
      stClear2.buffer ∧
    (drawMesh ratOps stClear2 dcOpaque camNeg light0 dcOpaque.material true false).depth ≠
      stClear2.depth := by
  with_unfolding_all decide

lemma foldl_fixed {α β : Type} {f : α → β → α} (h : ∀ s b, f s b = s) :
    ∀ (l : List β) (s : α), l.foldl f s = s := by
  intro l
  induction l with
  | nil => intro s; rfl
  | cons b t ih => intro s; rw [List.foldl_cons, h s b, ih s]

lemma getD_map_range {α : Type} (g : ℕ → α) (n j : ℕ) (d : α) :
    (((List.range n).map g).getD j d) = if j < n then g j else d := by
  by_cases hj : j < n
  · simp [List.getD, List.getElem?_map, List.getElem?_range, hj]
  · have h2 : (List.range n)[j]? = none :=
      List.getElem?_eq_none (by simpa using Nat.le_of_not_lt hj)
    simp [List.getD, List.getElem?_map, h2, hj]

/-- If every vertex of a draw call has clip w = 0, every per-vertex record
(and the out-of-range default) carries invW = none. -/
lemma meshVerts_clipped (ops : FloatOps) (st : RState) (mesh : DrawCall)
    (cam : Camera) (j : ℕ)
    (hw : ∀ i < mesh.positions.length, clipWOf mesh cam i = 0) :
    (((List.range mesh.positions.length).map (fun i =>
        meshVertex (mat4mul cam.proj (mat4mul cam.view mesh.model))
          (normalFromMat4 mesh.model) st.width st.height mesh.colors
          (mesh.positions.getD i ⟨0, 0, 0⟩)
          ((mesh.normals.getD (computeSmoothNormals ops mesh.positions
            (some (mesh.indices.getD (List.range mesh.positions.length))))).getD i
              ⟨0, 0, 0⟩) i)).getD j defaultMeshVert).invW = none := by
  rw [getD_map_range]
  by_cases hj : j < mesh.positions.length
  · simp only [hj, if_true]
    have hwj := hw j hj
    simp only [clipWOf] at hwj
    simp only [meshVertex, hwj, if_true]
    rfl
  · simp [hj, defaultMeshVert]

/-- C3 (amended): a vertex is marked clipped exactly when its 1/w is
non-finite, i.e. when its clip w equals 0 in exact arithmetic; if every
vertex of the draw call has clip w = 0, drawMesh writes no pixel and no
depth entry. (Triangles whose vertices have w < 0 are not rejected and may
rasterize, as the counterexample shows.) -/
theorem c3_amended (ops : FloatOps) (st : RState) (mesh : DrawCall) (cam : Camera)
    (light : LightSettings) (material : Material) (cull gammaOut : Bool)
    (hw : ∀ i < mesh.positions.length, clipWOf mesh cam i = 0) :
    drawMesh ops st mesh cam light material cull gammaOut = st := by
  unfold drawMesh
  apply foldl_fixed
  intro s t
  unfold rasterTriangle
  have h0 := meshVerts_clipped ops st mesh cam t.1 hw
  simp only [h0, Option.isNone_none]
  rw [if_pos (Or.inl trivial)]

/-- Witness for C3: with a projection whose bottom row is zero every clip w
is 0, and the draw leaves the framebuffer untouched. -/
theorem c3_witness :
    (∀ i < dcOpaque.positions.length, clipWOf dcOpaque camZeroW i = 0) ∧
    drawMesh ratOps stClear2 dcOpaque camZeroW light0 dcOpaque.material true false =
      stClear2 :=
  ⟨by with_unfolding_all decide,
   c3_amended ratOps stClear2 dcOpaque camZeroW light0 dcOpaque.material true false
     (by with_unfolding_all decide)⟩

/-- C4 (amended): in triangle mode a draw call without indices renders
exactly as the same draw call with the explicit index list 0..N-1; in line
mode a draw call without indices is skipped entirely (drawLines returns the
state unchanged), not treated as implicit 0..N-1. -/
theorem c4_amended :
    (∀ (ops : FloatOps) (st : RState) (mesh : DrawCall) (cam : Camera)
       (light : LightSettings) (material : Material) (cull gammaOut : Bool),
       mesh.indices = none →
       drawMesh ops st mesh cam light material cull gammaOut =
         drawMesh ops st { mesh with indices := some (List.range mesh.positions.length) }
           cam light material cull gammaOut) ∧
    (∀ (ops : FloatOps) (st : RState) (mesh : DrawCall) (cam : Camera)
       (gammaOut : Bool), mesh.indices = none →
       drawLines ops st mesh cam gammaOut = st) := by
  constructor
  · intro ops st mesh cam light material cull gammaOut h
    obtain ⟨pos, nrm, uvs, ind, model, mat2, cols, mode⟩ := mesh
    simp only at h
    subst h
    rfl
  · intro ops st mesh cam gammaOut h
    obtain ⟨pos, nrm, uvs, ind, model, mat2, cols, mode⟩ := mesh
    simp only at h
    subst h
    rfl

/-- Witness for C4: both conjuncts applied at concrete draw calls without
indices. -/
theorem c4_witness :
    dcOpaque.indices = none ∧ dcLine.indices = none ∧
    drawMesh ratOps stClear2 dcOpaque cam0 light0 dcOpaque.material true false =
      drawMesh ratOps stClear2
        { dcOpaque with indices := some (List.range dcOpaque.positions.length) }
        cam0 light0 dcOpaque.material true false ∧
    drawLines ratOps stClear2 dcLine cam0 false = stClear2 :=
  ⟨rfl, rfl,
   c4_amended.1 ratOps stClear2 dcOpaque cam0 light0 dcOpaque.material true false rfl,
   c4_amended.2 ratOps stClear2 dcLine cam0 false rfl⟩

/-- C4 counterexample: a line-mode draw call without indices draws nothing,
while the same draw call with the explicit index list [0, 1] writes pixels;
so absent indices are not equivalent to implicit 0..N-1 in line mode. -/
theorem c4_counterexample :
    dcLine.indices = none ∧ dcLine.mode = some 1 ∧
    drawLines ratOps stClear2 dcLine cam0 false = stClear2 ∧
    drawLines ratOps stClear2 { dcLine with indices := some [0, 1] } cam0 false ≠
      stClear2 := by
  with_unfolding_all decide

/-- C7: compute_world_aabb applied to an empty draw-call list returns the
bounds min = (-1,-1,-1) and max = (1,1,1). -/
theorem c7_empty_aabb : computeWorldAABB [] = ⟨⟨-1, -1, -1⟩, ⟨1, 1, 1⟩⟩ := by
  rfl

/-! ## C6: MASK fragments at or above the cutoff -/

lemma fragBase_congr {mat1 mat2 : Material} (tri : TriFrag) (l0 l1 l2 : ℚ)
    (h1 : mat1.baseColorFactor = mat2.baseColorFactor)
    (h2 : mat1.baseColorTexture = mat2.baseColorTexture) :
    fragBase mat1 tri l0 l1 l2 = fragBase mat2 tri l0 l1 l2 := by
  unfold fragBase
  rw [h1, h2]

lemma shadeCovered_mask_opq (ops : FloatOps) (bcf : Color4) (bct : Option Texture)
    (ac : Option ℚ) (light : LightSettings) (gammaOut : Bool) (tri : TriFrag)
    (st : RState) (x y : ℤ) (l0 l1 l2 z01 : ℚ) (di : ℕ)
    (hnl : ¬ ((fragBase ⟨bcf, bct, some .mask, ac⟩ tri l0 l1 l2).a < ac.getD (1 / 2))) :
    shadeCovered ops ⟨bcf, bct, some .mask, ac⟩ light gammaOut tri st x y l0 l1 l2 z01 di =
      shadeCovered ops ⟨bcf, bct, some .opq, ac⟩ light gammaOut tri st x y l0 l1 l2 z01 di := by
  have hfb : fragBase (⟨bcf, bct, some .opq, ac⟩ : Material) tri l0 l1 l2 =
      fragBase (⟨bcf, bct, some .mask, ac⟩ : Material) tri l0 l1 l2 :=
    fragBase_congr tri l0 l1 l2 rfl rfl
  rw [one_div] at hnl
  unfold shadeCovered
  simp [hfb, hnl]

/-- C6 (amended): a MASK fragment whose interpolated alpha is at or above
the cutoff is processed exactly as in OPAQUE mode; in particular the stored
alpha byte is the quantized interpolated alpha, not forced to 255. -/
theorem c6_amended (ops : FloatOps) (mat : Material) (light : LightSettings)
    (gammaOut : Bool) (tri : TriFrag) (st : RState) (x y : ℤ)
    (h1 : mat.alphaMode = some AlphaMode.mask)
    (h2 : mat.alphaCutoff.getD (1 / 2) ≤ fragAlphaAt mat tri x y) :
    shadeFragment ops mat light gammaOut tri st x y =
      shadeFragment ops { mat with alphaMode := some AlphaMode.opq } light gammaOut
        tri st x y := by
  obtain ⟨bcf, bct, am, ac⟩ := mat
  simp only at h1
  subst h1
  have hnl : ¬ ((fragBase ⟨bcf, bct, some .mask, ac⟩ tri
      ((fragLams tri x y).2).1 ((fragLams tri x y).2).2.1
      ((fragLams tri x y).2).2.2).a < ac.getD (1 / 2)) := by
    apply not_lt.mpr
    simpa [fragAlphaAt] using h2
  unfold shadeFragment
  dsimp only
  split
  · rfl
  · split
    · rfl
    · exact shadeCovered_mask_opq ops bcf bct ac light gammaOut tri _ x y _ _ _ _ _ hnl

/-- A concrete covered triangle used by the C6 and C10 witnesses. -/
def triW : TriFrag :=
  ⟨(0, 0), (0, 1), (1, 0), 1, 1, 1, 0, 0, 0, ⟨0, 0, 1⟩, ⟨0, 0, 1⟩, ⟨0, 0, 1⟩, none,
   ⟨1, 1, 1⟩, ⟨1, 1, 1⟩, ⟨1, 1, 1⟩, 1⟩

/-- Witness for C6: a MASK fragment with alpha 3/5 ≥ cutoff 1/2 shades
exactly as the OPAQUE version of the same material. -/
theorem c6_witness :
    matMaskPoint6.alphaMode = some AlphaMode.mask ∧
    matMaskPoint6.alphaCutoff.getD (1 / 2) ≤ fragAlphaAt matMaskPoint6 triW 0 0 ∧
    shadeFragment ratOps matMaskPoint6 light0 false triW stClear2 0 0 =
      shadeFragment ratOps { matMaskPoint6 with alphaMode := some AlphaMode.opq }
        light0 false triW stClear2 0 0 :=
  ⟨rfl, by with_unfolding_all decide,
   c6_amended ratOps matMaskPoint6 light0 false triW stClear2 0 0 rfl
     (by with_unfolding_all decide)⟩

/-- C6 counterexample: a MASK fragment with interpolated alpha 3/5 (above
the default cutoff 1/2) stores alpha byte 153 = (0.6*255)|0, not 255: the
code never forces the alpha of a passing MASK fragment to 1. -/
theorem c6_counterexample :
    dcMask6.material.alphaMode = some AlphaMode.mask ∧
    dcMask6.material.alphaCutoff.getD (1 / 2) ≤ dcMask6.material.baseColorFactor.a ∧
    (drawMesh ratOps stClear2 dcMask6 cam0 light0 dcMask6.material true false).buffer =
      [255, 255, 255, 153, 0, 0, 0, 0, 0, 0, 0, 0, 0, 0, 0, 0] ∧
    (153 : ℤ) ≠ 255 := by
  with_unfolding_all decide

/-! ## C8: computeSmoothNormals unit-length outputs -/

lemma sqNorm_eq_zero {v : Vec3} : sqNorm v = 0 ↔ v = ⟨0, 0, 0⟩ := by
  constructor
  · intro h
    unfold sqNorm at h
    have hx : v.x * v.x = 0 := by
      nlinarith [mul_self_nonneg v.x, mul_self_nonneg v.y, mul_self_nonneg v.z]
    have hy : v.y * v.y = 0 := by
      nlinarith [mul_self_nonneg v.x, mul_self_nonneg v.y, mul_self_nonneg v.z]
    have hz : v.z * v.z = 0 := by
      nlinarith [mul_self_nonneg v.x, mul_self_nonneg v.y, mul_self_nonneg v.z]
    obtain ⟨a, b, c⟩ := v
    simp only [Vec3.mk.injEq]
    exact ⟨mul_self_eq_zero.mp hx, mul_self_eq_zero.mp hy, mul_self_eq_zero.mp hz⟩
  · intro h
    subst h
    simp [sqNorm]

lemma normalizeAcc_zero (ops : FloatOps) : normalizeAcc ops ⟨0, 0, 0⟩ = ⟨0, 0, 0⟩ := by
  simp [normalizeAcc]

lemma csn_getD (ops : FloatOps) (positions : List Vec3) (indices : Option (List ℕ))
    (v : ℕ) :
    (computeSmoothNormals ops positions indices).getD v ⟨0, 0, 0⟩ =
      normalizeAcc ops (smoothAccOf positions indices v) := by
  unfold computeSmoothNormals smoothAccOf
  cases h : (smoothAccum positions
      (triplesOf (indices.getD (List.range positions.length))))[v]? with
  | none => simp [List.getD, List.getElem?_map, h, normalizeAcc_zero]
  | some w => simp [List.getD, List.getElem?_map, h]

/-- C8 (amended): when the square root is exact at the accumulator's squared
norm, a vertex whose accumulated normal is nonzero receives an exactly
unit-length output, and a vertex whose accumulator is zero — absent from
every triangle, touched only by degenerate triangles, or cancelled by
opposite-winding triangles — receives the zero vector (the zero-length
accumulator is divided by 1, so no component is ill-defined). -/
theorem c8_amended (ops : FloatOps) (positions : List Vec3)
    (indices : Option (List ℕ)) (v : ℕ)
    (hs : ops.sqrt (sqNorm (smoothAccOf positions indices v)) *
        ops.sqrt (sqNorm (smoothAccOf positions indices v)) =
        sqNorm (smoothAccOf positions indices v)) :
    (smoothAccOf positions indices v ≠ ⟨0, 0, 0⟩ →
      sqNorm ((computeSmoothNormals ops positions indices).getD v ⟨0, 0, 0⟩) = 1) ∧
    (smoothAccOf positions indices v = ⟨0, 0, 0⟩ →
      (computeSmoothNormals ops positions indices).getD v ⟨0, 0, 0⟩ = ⟨0, 0, 0⟩) := by
  constructor
  · intro hne
    rw [csn_getD]
    have hs0 : sqNorm (smoothAccOf positions indices v) ≠ 0 := fun h =>
      hne (sqNorm_eq_zero.mp h)
    have hsq : ops.sqrt (sqNorm (smoothAccOf positions indices v)) ≠ 0 := by
      intro h0
      rw [h0, zero_mul] at hs
      exact hs0 hs.symm
    set a := smoothAccOf positions indices v with ha
    set r := ops.sqrt (sqNorm a) with hr
    have hna : normalizeAcc ops a = ⟨a.x * (1 / r), a.y * (1 / r), a.z * (1 / r)⟩ := by
      unfold normalizeAcc
      dsimp only
      rw [← hr, if_neg hsq]
    rw [hna]
    have expand : sqNorm ⟨a.x * (1 / r), a.y * (1 / r), a.z * (1 / r)⟩ =
        sqNorm a * ((1 / r) * (1 / r)) := by
      unfold sqNorm
      ring
    rw [expand, ← hs]
    field_simp
  · intro h0
    rw [csn_getD, h0]
    exact normalizeAcc_zero ops

def posW8 : List Vec3 := [⟨0, 0, 0⟩, ⟨1, 0, 0⟩, ⟨0, 1, 0⟩]

/-- Witness for C8: one non-degenerate triangle gives vertex 0 the
accumulator (0,0,1), and its normalized output has squared norm 1. -/
theorem c8_witness :
    ratOps.sqrt (sqNorm (smoothAccOf posW8 none 0)) *
        ratOps.sqrt (sqNorm (smoothAccOf posW8 none 0)) =
      sqNorm (smoothAccOf posW8 none 0) ∧
    smoothAccOf posW8 none 0 ≠ ⟨0, 0, 0⟩ ∧
    sqNorm ((computeSmoothNormals ratOps posW8 none).getD 0 ⟨0, 0, 0⟩) = 1 :=
  ⟨by with_unfolding_all decide, by with_unfolding_all decide,
   (c8_amended ratOps posW8 none 0 (by with_unfolding_all decide)).1
     (by with_unfolding_all decide)⟩

def idx8 : List ℕ := [0, 1, 2, 0, 2, 1]

/-- C8 counterexample: vertex 0 is referenced by two non-degenerate
triangles of opposite winding; their face normals cancel, the accumulator is
zero, and the output vector is (0,0,0) — not unit length within 1e-5. -/
theorem c8_counterexample :
    faceNormal posW8 (0, 1, 2) ≠ ⟨0, 0, 0⟩ ∧
    faceNormal posW8 (0, 2, 1) ≠ ⟨0, 0, 0⟩ ∧
    (computeSmoothNormals ratOps posW8 (some idx8)).getD 0 ⟨0, 0, 0⟩ = ⟨0, 0, 0⟩ ∧
    ¬ ((1 - 1 / 100000 : ℚ) * (1 - 1 / 100000) ≤
        sqNorm ((computeSmoothNormals ratOps posW8 (some idx8)).getD 0 ⟨0, 0, 0⟩)) := by
  with_unfolding_all decide

/-! ## C10: blend-mode line pixels never write depth -/

lemma sourceOverWrite_depth (st : RState) (di : ℕ) (r g b a : ℤ) :
    (sourceOverWrite st di r g b a).depth = st.depth := by
  unfold sourceOverWrite
  dsimp only
  split
  · rfl
  · rfl

/-- C10: in the line rasterizer, a pixel of a BLEND-mode draw call whose
quantized alpha byte is below 255 never modifies the depth buffer; its only
possible effect on the bitmap is the source-over composite of the blending
branch (depth writes happen only in the fully-opaque branch). -/
theorem c10_blend_line_no_depth_write (ops : FloatOps) (gammaOut : Bool)
    (base : Color4) (st : RState) (cur : LineCursor)
    (h : lineAlphaByte base cur < 255) :
    (lineStepPixel ops true gammaOut base st cur).depth = st.depth ∧
    ((lineStepPixel ops true gammaOut base st cur).buffer = st.buffer ∨
      lineStepPixel ops true gammaOut base st cur =
        sourceOverWrite st ((jsRound cur.y * st.width + jsRound cur.x).toNat)
          (lineColorByte ops gammaOut (cur.r * base.r))
          (lineColorByte ops gammaOut (cur.g * base.g))
          (lineColorByte ops gammaOut (cur.b * base.b))
          (lineAlphaByte base cur)) := by
  unfold lineStepPixel
  dsimp only
  split
  · rw [if_pos ⟨rfl, h⟩]
    split
    · exact ⟨sourceOverWrite_depth st _ _ _ _ _, Or.inr rfl⟩
    · exact ⟨rfl, Or.inl rfl⟩
  · exact ⟨rfl, Or.inl rfl⟩

def curW : LineCursor := ⟨0, 0, 1 / 2, 1, 1, 1, 1⟩

def baseW : Color4 := ⟨1, 1, 1, 1 / 2⟩

/-- Witness for C10: a concrete blend-mode line pixel with alpha byte 127. -/
theorem c10_witness :
    lineAlphaByte baseW curW < 255 ∧
    ((lineStepPixel ratOps true false baseW stClear2 curW).depth = stClear2.depth ∧
     ((lineStepPixel ratOps true false baseW stClear2 curW).buffer = stClear2.buffer ∨
       lineStepPixel ratOps true false baseW stClear2 curW =
         sourceOverWrite stClear2
           ((jsRound curW.y * stClear2.width + jsRound curW.x).toNat)
           (lineColorByte ratOps false (curW.r * baseW.r))
           (lineColorByte ratOps false (curW.g * baseW.g))
           (lineColorByte ratOps false (curW.b * baseW.b))
           (lineAlphaByte baseW curW))) :=
  ⟨by with_unfolding_all decide,
   c10_blend_line_no_depth_write ratOps false baseW stClear2 curW
     (by with_unfolding_all decide)⟩

/-! ## C5: pass order equals rendering the stable partition -/

/-- Modelled from the spec's words: the stable partition of a draw-call
list into its OPAQUE draw calls (in input order), then its MASK draw calls,
then its BLEND draw calls. -/
def stablePartition (dcs : List DrawCall) : List DrawCall :=
  dcs.filter (isMode .opq) ++ dcs.filter (isMode .mask) ++ dcs.filter (isMode .blend)

lemma maxRC (a b c : ℚ) : max (max a b) c = max (max a c) b := by
  rw [max_assoc, max_comm b c, ← max_assoc]

lemma aabbStep_comm (s : Option (Vec3 × Vec3)) (p q : Vec3) :
    aabbStep (aabbStep s p) q = aabbStep (aabbStep s q) p := by
  cases s with
  | none =>
      simp only [aabbStep, Option.some.injEq, Prod.mk.injEq, Vec3.mk.injEq]
      exact ⟨⟨min_comm p.x q.x, min_comm p.y q.y, min_comm p.z q.z⟩,
             max_comm p.x q.x, max_comm p.y q.y, max_comm p.z q.z⟩
  | some mm =>
      obtain ⟨mn, mx⟩ := mm
      simp only [aabbStep, Option.some.injEq, Prod.mk.injEq, Vec3.mk.injEq]
      exact ⟨⟨min_right_comm mn.x p.x q.x, min_right_comm mn.y p.y q.y,
              min_right_comm mn.z p.z q.z⟩,
             maxRC mx.x p.x q.x, maxRC mx.y p.y q.y, maxRC mx.z p.z q.z⟩

lemma worldPoints_perm {l1 l2 : List DrawCall} (h : l1.Perm l2) :
    (worldPoints l1).Perm (worldPoints l2) :=
  h.flatMap_right _

lemma computeWorldAABB_perm {l1 l2 : List DrawCall} (h : l1.Perm l2) :
    computeWorldAABB l1 = computeWorldAABB l2 := by
  unfold computeWorldAABB
  rw [(worldPoints_perm h).foldl_eq' (fun x _ y _ z => aabbStep_comm z x y) none]

lemma isMode_and_ne {m m' : AlphaMode} (h : m ≠ m') (dc : DrawCall) :
    (isMode m dc && isMode m' dc) = false := by
  cases hx : alphaModeOf dc <;> cases m <;> cases m' <;>
    first
    | exact absurd rfl h
    | simp [isMode, hx]

open List in
lemma stablePartition_perm (l : List DrawCall) : (stablePartition l).Perm l := by
  have h1 : (l.filter (isMode .opq) ++ l.filter (fun dc => !(isMode .opq dc))).Perm l :=
    List.filter_append_perm _ l
  have h2 : ((l.filter (fun dc => !(isMode .opq dc))).filter (isMode .mask) ++
      (l.filter (fun dc => !(isMode .opq dc))).filter
        (fun dc => !(isMode .mask dc))).Perm
      (l.filter (fun dc => !(isMode .opq dc))) :=
    List.filter_append_perm _ _
  have e1 : (l.filter (fun dc => !(isMode .opq dc))).filter (isMode .mask) =
      l.filter (isMode .mask) := by
    rw [List.filter_filter]
    apply List.filter_congr
    intro dc _
    cases hx : alphaModeOf dc <;> simp [isMode, hx]
  have e2 : (l.filter (fun dc => !(isMode .opq dc))).filter
      (fun dc => !(isMode .mask dc)) = l.filter (isMode .blend) := by
    rw [List.filter_filter]
    apply List.filter_congr
    intro dc _
    cases hx : alphaModeOf dc <;> simp [isMode, hx]
  calc stablePartition l
      = l.filter (isMode .opq) ++
          ((l.filter (fun dc => !(isMode .opq dc))).filter (isMode .mask) ++
           (l.filter (fun dc => !(isMode .opq dc))).filter
             (fun dc => !(isMode .mask dc))) := by
        rw [e1, e2, stablePartition, List.append_assoc]
    _ ~ l.filter (isMode .opq) ++ l.filter (fun dc => !(isMode .opq dc)) :=
        List.Perm.append_left _ h2
    _ ~ l := h1

lemma filter_stablePartition (m : AlphaMode) (l : List DrawCall) :
    (stablePartition l).filter (isMode m) = l.filter (isMode m) := by
  unfold stablePartition
  rw [List.filter_append, List.filter_append, List.filter_filter,
    List.filter_filter, List.filter_filter]
  cases m with
  | opq =>
      rw [List.filter_congr (fun dc _ => Bool.and_self (isMode .opq dc)),
        List.filter_congr (fun dc _ => isMode_and_ne (by simp) dc),
        List.filter_congr (fun dc _ => isMode_and_ne (by simp) dc)]
      simp
  | mask =>
      rw [List.filter_congr (fun dc _ => isMode_and_ne (by simp) dc),
        List.filter_congr (fun dc _ => Bool.and_self (isMode .mask dc)),
        List.filter_congr (fun dc _ => isMode_and_ne (by simp) dc)]
      simp
  | blend =>
      rw [List.filter_congr (fun dc _ => isMode_and_ne (by simp) dc),
        List.filter_congr (fun dc _ => isMode_and_ne (by simp) dc),
        List.filter_congr (fun dc _ => Bool.and_self (isMode .blend dc))]
      simp

lemma buildCamera_perm (ops : FloatOps) {l1 l2 : List DrawCall} (h : l1.Perm l2)
    (w hgt : ℕ) (fov : ℚ) (camPos lookAt : Option Vec3) :
    buildCamera ops l1 w hgt fov camPos lookAt =
      buildCamera ops l2 w hgt fov camPos lookAt := by
  unfold buildCamera
  rw [computeWorldAABB_perm h]

lemma renderStages_eq (ops : FloatOps) (ext : ExternalFns) (cam : Camera)
    (opts : RenderOptions) (st1 : RState) {all1 all2 orig1 orig2 : List DrawCall}
    (inf : Option GridOptions)
    (hf : ∀ m, all1.filter (isMode m) = all2.filter (isMode m))
    (ha : computeWorldAABB orig1 = computeWorldAABB orig2) :
    renderStages ops ext cam opts st1 all1 inf orig1 =
      renderStages ops ext cam opts st1 all2 inf orig2 := by
  unfold renderStages
  rw [hf .opq, hf .mask, hf .blend, ha]

/-- C5: the orchestrator renders all OPAQUE draw calls first in input
order, then all MASK draw calls, then all BLEND draw calls: rendering any
input list produces exactly the same result as rendering its stable
partition [opaque ++ mask ++ blend]. -/
theorem c5_pass_order (ops : FloatOps) (ext : ExternalFns) (dcs : List DrawCall)
    (input : RenderOptionsInput) :
    renderDrawCalls ops ext dcs input =
      renderDrawCalls ops ext (stablePartition dcs) input := by
  have hperm := stablePartition_perm dcs
  have haabb : computeWorldAABB (stablePartition dcs) = computeWorldAABB dcs :=
    computeWorldAABB_perm hperm
  have hfil : ∀ m, (stablePartition dcs).filter (isMode m) = dcs.filter (isMode m) :=
    fun m => filter_stablePartition m dcs
  unfold renderDrawCalls
  dsimp only
  rw [buildCamera_perm ops hperm.symm]
  unfold gridStage
  dsimp only
  cases hg : (resolveRenderOptions input).grid with
  | off =>
      dsimp only
      rw [renderStages_eq ops ext _ _ _ none
        (fun m => (hfil m).symm) haabb.symm]
  | onTrue =>
      dsimp only
      by_cases hi : emptyGridOptions.infiniteGrid
      · rw [if_pos hi, if_pos hi]
        dsimp only
        rw [renderStages_eq ops ext _ _ _ (some emptyGridOptions)
          (fun m => (hfil m).symm) haabb.symm]
      · rw [if_neg hi, if_neg hi]
        dsimp only
        rw [haabb]
        congr 1
        apply renderStages_eq
        · intro m
          rw [List.filter_append, List.filter_append, hfil m]
        · exact haabb.symm
  | opts u =>
      dsimp only
      by_cases hi : u.infiniteGrid
      · rw [if_pos hi, if_pos hi]
        dsimp only
        rw [renderStages_eq ops ext _ _ _ (some u)
          (fun m => (hfil m).symm) haabb.symm]
      · rw [if_neg hi, if_neg hi]
        dsimp only
        rw [haabb]
        congr 1
        apply renderStages_eq
        · intro m
          rw [List.filter_append, List.filter_append, hfil m]
        · exact haabb.symm

/-! ## C9: determinism -/

/-- C9: rendering is deterministic — any two results of renderDrawCalls on
the same draw-call list and the same options have byte-identical bitmap
buffers. The embedded pipeline is a pure function of its inputs: it
consults no clock, randomness or other ambient state. -/
theorem c9_deterministic (ops : FloatOps) (ext : ExternalFns)
    (dcs : List DrawCall) (input : RenderOptionsInput) (r1 r2 : RenderResult)
    (h1 : r1 = renderDrawCalls ops ext dcs input)
    (h2 : r2 = renderDrawCalls ops ext dcs input) :
    r1.state.buffer = r2.state.buffer := by
  rw [h1, h2]

/-- Trivial external collaborators for the C9 witness. -/
def extId : ExternalFns := ⟨fun _ => dcOpaque, fun s _ => s⟩

def inputW : RenderOptionsInput :=
  ⟨some 2, some 2, none, none, none, none, none, none, none, none, none⟩

/-- Witness for C9 at a concrete empty scene. -/
theorem c9_witness :
    (renderDrawCalls ratOps extId [] inputW).state.buffer =
      (renderDrawCalls ratOps extId [] inputW).state.buffer :=
  c9_deterministic ratOps extId [] inputW _ _ rfl rfl

end PoppyGL
